import Mathlib

/-!
Verification development for the CollabUs map/directory core
(coordinate normalization, great-circle distance, visibility filtering
and ranking, collaboration-graph construction, and location providers).

The TypeScript sources are shallowly embedded: JavaScript numbers are
modelled exactly — parsed decimal text and coordinate data as rationals
(`ℚ`), trigonometric distance computation over the reals (`ℝ`), and the
IEEE special values `NaN`/`±Infinity` as explicit constructors of `JsNum`
where the code tests for them.  Fallible code returns `Option`.
-/

namespace CollabMap

/-! ## Decimal text parsing

The sources call the JavaScript builtin `parseFloat` on trimmed input
text.  `parseDecimal` embeds `parseFloat` on plain decimal literals
(optional sign, digits, optional fractional part), the input forms the
admin form and the geocoding provider produce; on any other input it
returns `none`, standing for `parseFloat`'s `NaN` result. -/

def parseNatDigits (cs : List Char) : Option ℕ :=
  if cs.isEmpty then none
  else cs.foldlM (fun acc c => if c.isDigit then some (acc * 10 + (c.toNat - 48)) else none) 0

def parseUnsigned (cs : List Char) : Option ℚ :=
  let intPart := cs.takeWhile (· ≠ '.')
  let rest := cs.dropWhile (· ≠ '.')
  match rest with
  | [] => (parseNatDigits intPart).map (fun n => (n : ℚ))
  | '.' :: frac =>
      match parseNatDigits intPart, parseNatDigits frac with
      | some n, some f => some ((n : ℚ) + (f : ℚ) / (10 : ℚ) ^ frac.length)
      | _, _ => none
  | _ => none

/-- Embeds `String.prototype.trim` (drop leading and trailing whitespace). -/
def trimChars (cs : List Char) : List Char :=
  ((cs.dropWhile Char.isWhitespace).reverse.dropWhile Char.isWhitespace).reverse

/-- Embeds `parseFloat((input).trim())` on plain decimal literals;
`none` models the `NaN` result. -/
def parseDecimal (s : String) : Option ℚ :=
  match trimChars s.toList with
  | '-' :: cs => (parseUnsigned cs).map Neg.neg
  | '+' :: cs => parseUnsigned cs
  | cs => parseUnsigned cs

/-! ## Coordinate Normalizer

`src/unnamed/part_003` lines 10–45 (`normalizeCoordinates` with the
`obviouslyFar` flag) and `src/unnamed/part_004` lines 73–97 (the same
function without the flag).  Both copies share verbatim the sign
correction (step 3) and swap-detection (step 4) lines, embedded here
once as `fixPair`. -/

/-- The regional sign correction and swap-detection steps, shared
verbatim by both source copies of `normalizeCoordinates`:
`if (lng > 0) lng = -lng;` then
`if (Math.abs(lat) > 60 && Math.abs(lng) < 60) { swap; if (lng > 0) lng = -lng; }`. -/
def fixPair (lat0 lng0 : ℚ) : ℚ × ℚ :=
  let lng1 := if 0 < lng0 then -lng0 else lng0
  if 60 < |lat0| ∧ |lng1| < 60 then
    (lng1, if 0 < lat0 then -lat0 else lat0)
  else (lat0, lng1)

structure NormResult where
  lat : ℚ
  lng : ℚ
  obviouslyFar : Bool
deriving DecidableEq

/-- The fixed regional reference point `DAYTON = { lat: 39.7589, lng: -84.1916 }`. -/
def DAYTON : ℚ × ℚ := (39.7589, -84.1916)

/-- Embeds `normalizeCoordinates` from `src/unnamed/part_003` lines 10–45:
parse both fields, fail on non-numbers (`none` stands for the thrown
format error) and on out-of-range values (the thrown range error), apply
sign correction and swap detection, then compute the advisory
`obviouslyFar` flag `dLat > 10 || dLng > 10` from the Dayton offsets. -/
def normalizeCoordinates (inputLat inputLng : String) : Option NormResult :=
  match parseDecimal inputLat, parseDecimal inputLng with
  | some lat0, some lng0 =>
    if 90 < |lat0| ∨ 180 < |lng0| then none
    else
      let p := fixPair lat0 lng0
      let dLat := |p.1 - DAYTON.1|
      let dLng := |p.2 - DAYTON.2|
      some ⟨p.1, p.2, decide (10 < dLat ∨ 10 < dLng)⟩
  | _, _ => none

/-- Embeds `normalizeCoordinates` from `src/unnamed/part_004` lines 73–97:
identical parsing, range checks, sign correction and swap detection, but
no far-from-region flag. -/
def normalizeCoordinates' (inputLat inputLng : String) : Option (ℚ × ℚ) :=
  match parseDecimal inputLat, parseDecimal inputLng with
  | some lat0, some lng0 =>
    if 90 < |lat0| ∨ 180 < |lng0| then none
    else some (fixPair lat0 lng0)
  | _, _ => none

/-! ## Distance Calculator

`haversineDistance` from `src/lib/geo.ts` (kilometers, unclamped arcsine
argument) and `milesBetween` from `src/components/MapView.tsx` (miles,
arcsine argument clamped with `Math.min(1, ...)`).  Floating-point
numbers are embedded as exact reals. -/

structure GeoPoint where
  lat : ℝ
  lng : ℝ

/-- Embeds `toRad = (d) => d * Math.PI / 180`. -/
noncomputable def toRad (d : ℝ) : ℝ := d * Real.pi / 180

/-- Embeds `haversineDistance` from `src/lib/geo.ts` (Earth radius 6371 km). -/
noncomputable def haversineDistance (a b : GeoPoint) : ℝ :=
  let R : ℝ := 6371
  let dLat := toRad (b.lat - a.lat)
  let dLng := toRad (b.lng - a.lng)
  let lat1 := toRad a.lat
  let lat2 := toRad b.lat
  let sinDLat := Real.sin (dLat / 2)
  let sinDLng := Real.sin (dLng / 2)
  let h := sinDLat * sinDLat + Real.cos lat1 * Real.cos lat2 * sinDLng * sinDLng
  2 * R * Real.arcsin (Real.sqrt h)

/-- Embeds `milesBetween` from `src/components/MapView.tsx` lines 39–50
(Earth radius 3958.8 mi, `Math.min(1, Math.sqrt(h))` before `Math.asin`). -/
noncomputable def milesBetween (a b : GeoPoint) : ℝ :=
  let Rm : ℝ := 3958.8
  let dLat := toRad (b.lat - a.lat)
  let dLng := toRad (b.lng - a.lng)
  let lat1 := toRad a.lat
  let lat2 := toRad b.lat
  let h := Real.sin (dLat / 2) ^ 2 + Real.cos lat1 * Real.cos lat2 * Real.sin (dLng / 2) ^ 2
  2 * Rm * Real.arcsin (min 1 (Real.sqrt h))

/-! ## Partner data and the Visibility Filter

`visiblePartners` from `src/components/MapView.tsx` lines 94–111.  A
JavaScript `number` field is embedded as `JsNum` so that the source's
`Number.isNaN` tests and the IEEE special values are representable; the
source's `typeof p.lat === 'number'` tests are identically true in the
embedding because the field is number-typed. -/

inductive JsNum where
  | nan
  | posInf
  | negInf
  | fin (val : ℚ)
deriving DecidableEq

/-- Embeds `Number.isNaN`. -/
def JsNum.isNaN : JsNum → Bool
  | .nan => true
  | _ => false

/-- The finite (exactly representable) value of a `JsNum`, if any. -/
def jsToQ : JsNum → Option ℚ
  | .fin q => some q
  | _ => none

inductive CollabStatus where
  | active
  | paused
  | ended
deriving DecidableEq

/-- The per-partner `collab` payload of the map pages' `Partner` type. -/
structure PartnerCollab where
  status : Option CollabStatus
  popRule : Option String
deriving DecidableEq

/-- The `Partner` row type of `src/components/MapView.tsx` /
`src/unnamed/part_002`. -/
structure Partner where
  id : String
  name : String
  address : String
  lat : JsNum
  lng : JsNum
  website : Option String
  is_public : Bool
  collab : Option PartnerCollab
deriving DecidableEq

/-- The base validity test of `visiblePartners` (MapView.tsx lines 95–102):
`p.is_public && typeof p.lat === 'number' && !Number.isNaN(p.lat) &&
typeof p.lng === 'number' && !Number.isNaN(p.lng)`; the `typeof` tests
are identically true here. -/
def partnerValid (p : Partner) : Bool :=
  p.is_public && !p.lat.isNaN && !p.lng.isNaN

/-- The `_dist` annotation `milesBetween(userLocation, {lat, lng})`.
On non-finite coordinates the source computes a `NaN` distance, which
fails every `<=` comparison; this is modelled as `none`. -/
noncomputable def partnerDist (u : GeoPoint) (p : Partner) : Option ℝ :=
  match jsToQ p.lat, jsToQ p.lng with
  | some la, some lg => some (milesBetween u ⟨(la : ℝ), (lg : ℝ)⟩)
  | _, _ => none

/-- The radius test `p._dist <= radiusMiles`; an undefined (`NaN`)
distance fails the test, as in the source. -/
noncomputable def optDistLE (d : Option ℝ) (r : ℝ) : Bool :=
  match d with
  | some x => decide (x ≤ r)
  | none => false

/-- The ascending-distance comparator `(a, b) => a._dist - b._dist` of the
source's stable `Array.prototype.sort`.  Elements with an undefined
distance never reach the sort (they fail the radius test); the arms
involving `none` are chosen so that the comparator is a total preorder. -/
noncomputable def optLE (a b : Partner × Option ℝ) : Bool :=
  match a.2, b.2 with
  | some x, some y => decide (x ≤ y)
  | some _, none => true
  | none, some _ => false
  | none, none => true

/-- The filtered base list of `visiblePartners`. -/
def baseVisible (partners : List Partner) : List Partner :=
  partners.filter partnerValid

/-- The annotate-then-radius-filter stage of `visiblePartners`:
`base.map(p => ({...p, _dist})).filter(p => p._dist <= radiusMiles)`. -/
noncomputable def withinRadius (u : GeoPoint) (partners : List Partner) (radiusMiles : ℝ) :
    List (Partner × Option ℝ) :=
  ((baseVisible partners).map (fun p => (p, partnerDist u p))).filter
    (fun x => optDistLE x.2 radiusMiles)

/-- Embeds `visiblePartners` from `src/components/MapView.tsx` lines
94–111: validity filter; without a user location the filtered list in
original order (no distance annotation), with one the radius-filtered
list stably sorted by ascending distance. -/
noncomputable def visiblePartners (partners : List Partner) (userLocation : Option GeoPoint)
    (radiusMiles : ℝ) : List (Partner × Option ℝ) :=
  match userLocation with
  | none => (baseVisible partners).map (fun p => (p, none))
  | some u => (withinRadius u partners radiusMiles).mergeSort optLE

/-! ## Collaboration Graph Builder

`collabEdges` from `src/unnamed/part_002` lines 301–351. -/

structure Collab where
  id : String
  name : String
  tag : Option String
  description : Option String
  link : Option String
  status : CollabStatus
  color : Option String
deriving DecidableEq

structure CollabMember where
  collab_id : String
  partner_id : String
deriving DecidableEq

structure EdgeEndpoint where
  id : String
  name : String
  lat : JsNum
  lng : JsNum
deriving DecidableEq

structure Edge where
  id : String
  collabId : String
  color : String
  a : EdgeEndpoint
  b : EdgeEndpoint
  popupHtml : String
deriving DecidableEq

/-- The eligibility filter over `selectedCollabId`: the source compares
the selection string against `'none'`, `'all'`, `'active'`, and
otherwise against the collaboration's id. -/
def eligibleCollabs (collabs : List Collab) (selectedCollabId : String) : List Collab :=
  collabs.filter (fun c =>
    if selectedCollabId = "none" then false
    else if selectedCollabId = "all" then true
    else if selectedCollabId = "active" then c.status == CollabStatus.active
    else c.id == selectedCollabId)

/-- The member ids of collaboration `c` in membership-list order (the
source accumulates `byCollab` by pushing in `members` order). -/
def memberIdsOf (c : Collab) (members : List CollabMember) : List String :=
  (members.filter (fun m => m.collab_id == c.id)).map (fun m => m.partner_id)

/-- The member ids restricted to ids present among the visible partners:
`(byCollab.get(c.id) || []).filter(pid => partnerMap.has(pid))`. -/
def restrictedIds (c : Collab) (members : List CollabMember) (vis : List Partner) : List String :=
  (memberIdsOf c members).filter (fun pid => vis.any (fun p => p.id == pid))

/-- All index pairs `i < j` of a list in the source's nested-loop order. -/
def offDiagPairs : List α → List (α × α)
  | [] => []
  | x :: xs => (xs.map (fun y => (x, y))) ++ offDiagPairs xs

/-- Embeds `partnerMap.get(pid)!` where `partnerMap` is a JavaScript
`Map` built from the visible partners keyed by id: the map keeps the
last insertion for a duplicated key.  The fallback record models the
source's non-null assertion; it is unreachable because looked-up ids are
pre-filtered with `partnerMap.has`. -/
def lookupLast (vis : List Partner) (pid : String) : Partner :=
  (vis.reverse.find? (fun p => p.id == pid)).getD ⟨"", "", "", .nan, .nan, none, false, none⟩

def statusText : CollabStatus → String
  | .active => "active"
  | .paused => "paused"
  | .ended => "ended"

/-- The popup template of each edge (interpolation structure of the
source's template literal; inter-tag whitespace abbreviated).  The
status line is always emitted because `c.status` is a non-empty string;
the details line is emitted for a truthy (non-empty) link. -/
def popupHtmlFor (c : Collab) (A B : Partner) : String :=
  "<div style=\"min-width:180px\"><div style=\"font-weight:700;margin-bottom:2px\">" ++ c.name
    ++ "</div><div class=\"small\">" ++ A.name ++ " ↔ " ++ B.name ++ "</div>"
    ++ "<div class=\"small\"><b>Status:</b> " ++ statusText c.status ++ "</div>"
    ++ (match c.link with
        | some l =>
            if l = "" then ""
            else "<div class=\"small\" style=\"margin-top:4px\"><a href=\"" ++ l
              ++ "\" target=\"_blank\" rel=\"noreferrer\">Details</a></div>"
        | none => "")
    ++ "</div>"

/-- One pushed edge: id `` `${c.id}:${A.id}-${B.id}` ``, color
`c.color || '#ef4444'`, endpoint projections, popup payload. -/
def mkEdge (c : Collab) (A B : Partner) : Edge :=
  { id := c.id ++ ":" ++ A.id ++ "-" ++ B.id
    collabId := c.id
    color := match c.color with
      | some col => if col = "" then "#ef4444" else col
      | none => "#ef4444"
    a := ⟨A.id, A.name, A.lat, A.lng⟩
    b := ⟨B.id, B.name, B.lat, B.lng⟩
    popupHtml := popupHtmlFor c A B }

/-- The per-collaboration edge contribution: skip when fewer than two
restricted members remain, otherwise one edge per nested-loop pair
`i < j`. -/
def edgesForCollab (c : Collab) (members : List CollabMember) (vis : List Partner) : List Edge :=
  let ids := restrictedIds c members vis
  if ids.length < 2 then []
  else (offDiagPairs ids).map (fun ab => mkEdge c (lookupLast vis ab.1) (lookupLast vis ab.2))

/-- Embeds `collabEdges` from `src/unnamed/part_002` lines 301–351,
including the early returns on a disabled toggle, empty membership or
collaboration data, and an empty eligible set. -/
def collabEdges (showCollabs : Bool) (members : List CollabMember) (collabs : List Collab)
    (selectedCollabId : String) (vis : List Partner) : List Edge :=
  if !showCollabs || members.isEmpty || collabs.isEmpty then []
  else
    let eligible := eligibleCollabs collabs selectedCollabId
    if eligible.isEmpty then []
    else eligible.flatMap (fun c => edgesForCollab c members vis)

/-! ## Location providers

`geocode` and `ipApproximateLocation` from `src/pages/index.tsx`. -/

/-- Embeds the coordinate application of `geocode` (`src/pages/index.tsx`
lines 37–56): an empty or non-array response produces no location (the
user is alerted), otherwise `onLocation` is called with the raw parsed
first candidate — `{ lat: parseFloat(data[0].lat), lng: parseFloat(data[0].lon) }` —
with no further processing.  The inner `Option ℚ` components model the
possibly-`NaN` results of `parseFloat`. -/
def geocodeReferencePoint (response : List (String × String)) : Option (Option ℚ × Option ℚ) :=
  match response with
  | [] => none
  | c :: _ => some (parseDecimal c.1, parseDecimal c.2)

/-- Embeds `ipApproximateLocation` (`src/pages/index.tsx` lines 118–131):
`null` unless the response is ok and both fields are numbers, otherwise
the raw `{ lat: data.latitude, lng: data.longitude }` with no further
processing.  A numeric JSON field is modelled as `some` rational. -/
def ipApproximateLocation (ok : Bool) (latitude longitude : Option ℚ) : Option (ℚ × ℚ) :=
  if !ok then none
  else match latitude, longitude with
    | some la, some lg => some (la, lg)
    | _, _ => none

/-! ## Helper lemmas -/

/-- Successful runs of the part_003 normalizer, characterized. -/
lemma normalizeCoordinates_some_iff (s t : String) (r : NormResult) :
    normalizeCoordinates s t = some r ↔
    ∃ la lg, parseDecimal s = some la ∧ parseDecimal t = some lg ∧
      ¬(90 < |la| ∨ 180 < |lg|) ∧
      r = ⟨(fixPair la lg).1, (fixPair la lg).2,
           decide (10 < |(fixPair la lg).1 - DAYTON.1| ∨ 10 < |(fixPair la lg).2 - DAYTON.2|)⟩ := by
  unfold normalizeCoordinates
  cases hs : parseDecimal s <;> cases ht : parseDecimal t <;> simp [hs, ht]
  intro _ _
  exact eq_comm

/-- Successful runs of the part_004 normalizer, characterized. -/
lemma normalizeCoordinates'_some_iff (s t : String) (p : ℚ × ℚ) :
    normalizeCoordinates' s t = some p ↔
    ∃ la lg, parseDecimal s = some la ∧ parseDecimal t = some lg ∧
      ¬(90 < |la| ∨ 180 < |lg|) ∧ p = fixPair la lg := by
  unfold normalizeCoordinates'
  cases hs : parseDecimal s <;> cases ht : parseDecimal t <;> simp [hs, ht]
  intro _ _
  exact eq_comm

/-- Range bounds for the sign-correction/swap core: in-range inputs come
out with latitude in `[-90, 90]` and longitude in `[-180, 0]`. -/
lemma fixPair_range (lat0 lng0 : ℚ) (hlat : |lat0| ≤ 90) (hlng : |lng0| ≤ 180) :
    -90 ≤ (fixPair lat0 lng0).1 ∧ (fixPair lat0 lng0).1 ≤ 90 ∧
    -180 ≤ (fixPair lat0 lng0).2 ∧ (fixPair lat0 lng0).2 ≤ 0 := by
  rw [abs_le] at hlat hlng
  have hl1 : (if 0 < lng0 then -lng0 else lng0) ≤ 0 := by
    split_ifs with h
    · linarith
    · exact not_lt.mp h
  have hl2 : -180 ≤ (if 0 < lng0 then -lng0 else lng0) := by
    split_ifs with h <;> linarith [hlng.1, hlng.2]
  unfold fixPair
  by_cases hsw : 60 < |lat0| ∧ |if 0 < lng0 then -lng0 else lng0| < 60
  · rw [if_pos hsw]
    obtain ⟨-, h2⟩ := hsw
    rw [abs_lt] at h2
    dsimp only
    refine ⟨by linarith [h2.1], by linarith [h2.2], ?_, ?_⟩ <;>
      · split_ifs with h3
        · linarith [hlat.1, hlat.2]
        · rw [not_lt] at h3
          linarith [hlat.1, hlat.2]
  · rw [if_neg hsw]
    exact ⟨hlat.1, hlat.2, hl2, hl1⟩

/-! ## C1 — the spec's swap example -/

/-- C1, counterexample: on the swap-case input `("-84.2", "40.0")` the
normalizer (both source copies) succeeds but returns latitude `-40`, not
the `40.0` the claim states: the sign correction negates the longitude
`40` to `-40` before the swap moves it into the latitude position. -/
theorem c1_counterexample :
    normalizeCoordinates "-84.2" "40.0" = some ⟨-40, -(421/5), true⟩ ∧
    normalizeCoordinates' "-84.2" "40.0" = some (-40, -(421/5)) ∧
    (-40 : ℚ) ≠ 40 := by
  refine ⟨?_, ?_, by norm_num⟩ <;>
    · simp [normalizeCoordinates, normalizeCoordinates', parseDecimal, trimChars,
        parseUnsigned, parseNatDigits, fixPair, DAYTON]
      norm_num [abs_le, lt_abs, abs_lt]

/-- C1, amended: the swap-case input `("-84.2", "40.0")` succeeds and
returns the point `(-40.0, -84.2)` (with the far-from-region flag set in
the part_003 copy), because the regional sign correction is applied to
the longitude before the swap. -/
theorem c1_swap_case_output :
    normalizeCoordinates "-84.2" "40.0" = some ⟨-40, -(421/5), true⟩ ∧
    normalizeCoordinates' "-84.2" "40.0" = some (-40, -(421/5)) := by
  constructor <;>
    · simp [normalizeCoordinates, normalizeCoordinates', parseDecimal, trimChars,
        parseUnsigned, parseNatDigits, fixPair, DAYTON]
      norm_num [abs_le, lt_abs, abs_lt]

/-! ## C3 — the far-from-region flag -/

/-- C3, counterexample: on input `("39.7589", "-120")` the latitude
offset from the regional center is `0` (not above the threshold), yet
the normalizer sets the far-from-region flag, because the source tests
`dLat > 10 || dLng > 10` — either offset, not both. -/
theorem c3_counterexample :
    normalizeCoordinates "39.7589" "-120" = some ⟨397589/10000, -120, true⟩ ∧
    |(397589 : ℚ)/10000 - DAYTON.1| ≤ 10 := by
  constructor
  · simp [normalizeCoordinates, parseDecimal, trimChars, parseUnsigned,
      parseNatDigits, fixPair, DAYTON]
    norm_num [abs_le, lt_abs, abs_lt]
  · simp [DAYTON]
    norm_num [abs_le]

/-- C3, amended: for every numerically valid, in-range input the
normalization succeeds (the advisory flag never causes failure), and the
far-from-region flag is true exactly when the latitude offset **or** the
longitude offset from the regional center `(39.7589, -84.1916)` exceeds
the 10-degree threshold (the source uses a disjunction, not the
claimed conjunction). -/
theorem c3_far_flag_characterization (s t : String) (la lg : ℚ)
    (hs : parseDecimal s = some la) (ht : parseDecimal t = some lg)
    (hla : |la| ≤ 90) (hlg : |lg| ≤ 180) :
    ∃ r : NormResult, normalizeCoordinates s t = some r ∧
      (r.obviouslyFar = true ↔ (10 < |r.lat - DAYTON.1| ∨ 10 < |r.lng - DAYTON.2|)) := by
  refine ⟨⟨(fixPair la lg).1, (fixPair la lg).2,
      decide (10 < |(fixPair la lg).1 - DAYTON.1| ∨ 10 < |(fixPair la lg).2 - DAYTON.2|)⟩,
    ?_, ?_⟩
  · rw [normalizeCoordinates_some_iff]
    exact ⟨la, lg, hs, ht, by push_neg; exact ⟨hla, hlg⟩, rfl⟩
  · simp

/-- C3, witness: the amended characterization applied at the concrete
input `("39.7589", "-120")`. -/
theorem c3_far_flag_witness :
    ∃ r : NormResult, normalizeCoordinates "39.7589" "-120" = some r ∧
      (r.obviouslyFar = true ↔ (10 < |r.lat - DAYTON.1| ∨ 10 < |r.lng - DAYTON.2|)) :=
  c3_far_flag_characterization "39.7589" "-120" (397589/10000) (-120)
    (by simp [parseDecimal, trimChars, parseUnsigned, parseNatDigits]; norm_num)
    (by simp [parseDecimal, trimChars, parseUnsigned, parseNatDigits])
    (by norm_num [abs_le]) (by norm_num [abs_le])

/-! ## C10 — normalized output ranges (western hemisphere) -/

/-- C10: every input accepted by the Coordinate Normalizer (either
source copy) comes out with latitude in `[-90, 90]` and longitude in
`[-180, 0]`: the sign corrections force every accepted coordinate into
the western hemisphere. -/
theorem c10_normalized_ranges :
    (∀ (s t : String) (r : NormResult), normalizeCoordinates s t = some r →
      -90 ≤ r.lat ∧ r.lat ≤ 90 ∧ -180 ≤ r.lng ∧ r.lng ≤ 0) ∧
    (∀ (s t : String) (p : ℚ × ℚ), normalizeCoordinates' s t = some p →
      -90 ≤ p.1 ∧ p.1 ≤ 90 ∧ -180 ≤ p.2 ∧ p.2 ≤ 0) := by
  constructor
  · intro s t r h
    rw [normalizeCoordinates_some_iff] at h
    obtain ⟨la, lg, -, -, hrange, hr⟩ := h
    push_neg at hrange
    subst hr
    exact fixPair_range la lg hrange.1 hrange.2
  · intro s t p h
    rw [normalizeCoordinates'_some_iff] at h
    obtain ⟨la, lg, -, -, hrange, hp⟩ := h
    push_neg at hrange
    subst hp
    exact fixPair_range la lg hrange.1 hrange.2

/-- C10, witness: the range invariant applied to the accepted input
`("40.0", "84.2")`, whose normalization yields `(40, -84.2)`. -/
theorem c10_normalized_ranges_witness :
    -90 ≤ (40 : ℚ) ∧ (40 : ℚ) ≤ 90 ∧ -180 ≤ -((421 : ℚ)/5) ∧ -((421 : ℚ)/5) ≤ 0 := by
  have h : normalizeCoordinates "40.0" "84.2" = some ⟨40, -(421/5), false⟩ := by
    simp [normalizeCoordinates, parseDecimal, trimChars, parseUnsigned,
      parseNatDigits, fixPair, DAYTON]
    norm_num [abs_le, lt_abs, abs_lt]
  exact c10_normalized_ranges.1 "40.0" "84.2" ⟨40, -(421/5), false⟩ h

/-! ## C4 — provider results and the Normalizer -/

/-- C4, counterexample: the geocoder's first candidate `("40.0", "84.2")`
is applied as the reference point with longitude `+84.2`, while the
Coordinate Normalizer maps the same pair to longitude `-84.2`: the
provider result is not passed through the Normalizer before becoming
the session's reference point. -/
theorem c4_counterexample :
    geocodeReferencePoint [("40.0", "84.2")] = some (some 40, some (421/5)) ∧
    normalizeCoordinates "40.0" "84.2" = some ⟨40, -(421/5), false⟩ ∧
    ((421 : ℚ)/5 ≠ -(421/5)) := by
  refine ⟨?_, ?_, by norm_num⟩
  · simp [geocodeReferencePoint, parseDecimal, trimChars, parseUnsigned, parseNatDigits]
    norm_num
  · simp [normalizeCoordinates, parseDecimal, trimChars, parseUnsigned,
      parseNatDigits, fixPair, DAYTON]
    norm_num [abs_le, lt_abs, abs_lt]

/-- C4, amended: the geocoder applies the raw parsed first candidate as
the reference point with no normalization step; for any in-range
candidate with positive longitude (and latitude magnitude at most 60, so
the swap heuristic is inert) the applied longitude is the parsed value
`lg`, while normalizing the same texts would return `-lg ≠ lg`.  The
IP-approximate provider likewise applies its raw coordinates. -/
theorem c4_raw_provider_coordinates (s t : String) (rest : List (String × String)) (la lg : ℚ)
    (hs : parseDecimal s = some la) (ht : parseDecimal t = some lg) :
    geocodeReferencePoint ((s, t) :: rest) = some (some la, some lg) ∧
    (ipApproximateLocation true (some la) (some lg) = some (la, lg)) ∧
    (|la| ≤ 60 → 0 < lg → lg ≤ 180 →
      ∃ r : NormResult, normalizeCoordinates s t = some r ∧ r.lng = -lg ∧ r.lng ≠ lg) := by
  refine ⟨by simp [geocodeReferencePoint, hs, ht], rfl, ?_⟩
  intro hla hpos hle
  have hcond : ¬(60 < |la| ∧ |(-lg : ℚ)| < 60) := by
    rintro ⟨h60, -⟩
    rw [abs_le] at hla
    rcases lt_abs.mp h60 with h | h <;> linarith [hla.1, hla.2]
  have hfix : fixPair la lg = (la, -lg) := by
    unfold fixPair
    simp only [if_pos hpos, if_neg hcond]
  refine ⟨⟨(fixPair la lg).1, (fixPair la lg).2,
      decide (10 < |(fixPair la lg).1 - DAYTON.1| ∨ 10 < |(fixPair la lg).2 - DAYTON.2|)⟩, ?_, ?_, ?_⟩
  · rw [normalizeCoordinates_some_iff]
    refine ⟨la, lg, hs, ht, ?_, rfl⟩
    push_neg
    constructor
    · exact le_trans hla (by norm_num)
    · rw [abs_of_pos hpos]
      exact hle
  · rw [hfix]
  · rw [hfix]
    dsimp only
    intro hcon
    have hzero : lg = 0 := by linarith
    exact absurd hzero (ne_of_gt hpos)

/-! ## C9 — metric properties of the distance functions -/

/-- C9: for valid GeoPoints both distance implementations are
nonnegative, zero on identical points, and symmetric. -/
theorem c9_distance_properties (a b : GeoPoint)
    (_ha : -90 ≤ a.lat ∧ a.lat ≤ 90 ∧ -180 ≤ a.lng ∧ a.lng ≤ 180)
    (_hb : -90 ≤ b.lat ∧ b.lat ≤ 90 ∧ -180 ≤ b.lng ∧ b.lng ≤ 180) :
    (0 ≤ haversineDistance a b ∧ haversineDistance a a = 0 ∧
      haversineDistance a b = haversineDistance b a) ∧
    (0 ≤ milesBetween a b ∧ milesBetween a a = 0 ∧
      milesBetween a b = milesBetween b a) := by
  refine ⟨⟨?_, ?_, ?_⟩, ?_, ?_, ?_⟩
  · unfold haversineDistance
    exact mul_nonneg (by norm_num) (Real.arcsin_nonneg.mpr (Real.sqrt_nonneg _))
  · simp [haversineDistance, toRad]
  · unfold haversineDistance
    have h1 : toRad (b.lat - a.lat) = -toRad (a.lat - b.lat) := by unfold toRad; ring
    have h2 : toRad (b.lng - a.lng) = -toRad (a.lng - b.lng) := by unfold toRad; ring
    rw [h1, h2]
    simp only [neg_div, Real.sin_neg]
    ring_nf
  · unfold milesBetween
    refine mul_nonneg (by norm_num) (Real.arcsin_nonneg.mpr ?_)
    exact le_min (by norm_num) (Real.sqrt_nonneg _)
  · simp [milesBetween, toRad]
  · unfold milesBetween
    have h1 : toRad (b.lat - a.lat) = -toRad (a.lat - b.lat) := by unfold toRad; ring
    have h2 : toRad (b.lng - a.lng) = -toRad (a.lng - b.lng) := by unfold toRad; ring
    rw [h1, h2]
    simp only [neg_div, Real.sin_neg]
    ring_nf

/-- C9, witness: the metric properties at the concrete valid points
`(0, 0)` and `(0, 1)`. -/
theorem c9_distance_properties_witness :
    (0 ≤ haversineDistance ⟨0, 0⟩ ⟨0, 1⟩ ∧ haversineDistance ⟨0, 0⟩ ⟨0, 0⟩ = 0 ∧
      haversineDistance ⟨0, 0⟩ ⟨0, 1⟩ = haversineDistance ⟨0, 1⟩ ⟨0, 0⟩) ∧
    (0 ≤ milesBetween ⟨0, 0⟩ ⟨0, 1⟩ ∧ milesBetween ⟨0, 0⟩ ⟨0, 0⟩ = 0 ∧
      milesBetween ⟨0, 0⟩ ⟨0, 1⟩ = milesBetween ⟨0, 1⟩ ⟨0, 0⟩) :=
  c9_distance_properties ⟨0, 0⟩ ⟨0, 1⟩ (by norm_num) (by norm_num)

/-! ## C4 witness -/

/-- C4, witness: the amended statement applied at the concrete geocoder
candidate `("40.0", "84.2")`. -/
theorem c4_raw_provider_witness :
    ∃ r : NormResult, normalizeCoordinates "40.0" "84.2" = some r ∧
      r.lng = -(421/5) ∧ r.lng ≠ 421/5 :=
  (c4_raw_provider_coordinates "40.0" "84.2" [] 40 (421/5)
      (by simp [parseDecimal, trimChars, parseUnsigned, parseNatDigits])
      (by simp [parseDecimal, trimChars, parseUnsigned, parseNatDigits]; norm_num)).2.2
    (by norm_num [abs_le]) (by norm_num) (by norm_num)

/-! ## Visibility filter lemmas -/

lemma optDistLE_eq_true (d : Option ℝ) (r : ℝ) :
    optDistLE d r = true ↔ ∃ x, d = some x ∧ x ≤ r := by
  cases d <;> simp [optDistLE]

lemma optLE_trans (a b c : Partner × Option ℝ) (h1 : optLE a b = true) (h2 : optLE b c = true) :
    optLE a c = true := by
  cases ha : a.2 <;> cases hb : b.2 <;> cases hc : c.2 <;> simp_all [optLE]
  exact le_trans (by assumption) (by assumption)

lemma optLE_total (a b : Partner × Option ℝ) : optLE a b || optLE b a := by
  cases ha : a.2 <;> cases hb : b.2 <;> simp [optLE, ha, hb]
  exact le_total _ _

lemma mem_baseVisible {partners : List Partner} {p : Partner} :
    p ∈ baseVisible partners ↔ p ∈ partners ∧ partnerValid p = true := by
  simp [baseVisible, List.mem_filter]

lemma mem_withinRadius {u : GeoPoint} {partners : List Partner} {r : ℝ}
    {x : Partner × Option ℝ} :
    x ∈ withinRadius u partners r ↔
      (x.1 ∈ partners ∧ partnerValid x.1 = true ∧ x.2 = partnerDist u x.1 ∧
        ∃ d, x.2 = some d ∧ d ≤ r) := by
  unfold withinRadius
  rw [List.mem_filter]
  simp only [List.mem_map, mem_baseVisible, optDistLE_eq_true]
  constructor
  · rintro ⟨⟨p, ⟨hp, hv⟩, rfl⟩, hd⟩
    exact ⟨hp, hv, rfl, hd⟩
  · rintro ⟨hp, hv, hx2, hd⟩
    refine ⟨⟨x.1, ⟨hp, hv⟩, ?_⟩, hd⟩
    rw [← hx2]

/-! ## C5 — what the validity filter excludes -/

/-- C5, counterexample: a visible partner with finite but out-of-range
latitude `200` and one with latitude `+Infinity` are both retained by
the visibility filter (no reference point supplied): the source checks
only `is_public`, `typeof`, and `Number.isNaN`, not ranges or
finiteness. -/
theorem c5_counterexample :
    ((⟨"p1", "OutOfRange", "x", .fin 200, .fin 0, none, true, none⟩ : Partner),
        (none : Option ℝ)) ∈
      visiblePartners
        [⟨"p1", "OutOfRange", "x", .fin 200, .fin 0, none, true, none⟩,
         ⟨"p2", "Infinite", "x", .posInf, .fin 0, none, true, none⟩] none 5 ∧
    ((⟨"p2", "Infinite", "x", .posInf, .fin 0, none, true, none⟩ : Partner),
        (none : Option ℝ)) ∈
      visiblePartners
        [⟨"p1", "OutOfRange", "x", .fin 200, .fin 0, none, true, none⟩,
         ⟨"p2", "Infinite", "x", .posInf, .fin 0, none, true, none⟩] none 5 ∧
    (90 : ℚ) < 200 := by
  refine ⟨?_, ?_, by norm_num⟩ <;>
    simp [visiblePartners, baseVisible, partnerValid, JsNum.isNaN]

/-- C5, amended: the visibility filter (which is a total function in
every branch) guarantees exactly that every retained partner is marked
public and has non-`NaN` coordinates; it performs no range or
finiteness test. -/
theorem c5_filter_guarantee (partners : List Partner) (loc : Option GeoPoint) (r : ℝ)
    (x : Partner × Option ℝ) (hx : x ∈ visiblePartners partners loc r) :
    x.1.is_public = true ∧ x.1.lat.isNaN = false ∧ x.1.lng.isNaN = false := by
  have hvalid : partnerValid x.1 = true := by
    cases loc with
    | none =>
      unfold visiblePartners at hx
      obtain ⟨p, hp, rfl⟩ := List.mem_map.mp hx
      exact (mem_baseVisible.mp hp).2
    | some u =>
      unfold visiblePartners at hx
      rw [List.mem_mergeSort] at hx
      exact (mem_withinRadius.mp hx).2.1
  unfold partnerValid at hvalid
  simp only [Bool.and_eq_true, Bool.not_eq_true'] at hvalid
  exact ⟨hvalid.1.1, hvalid.1.2, hvalid.2⟩

/-- C5, witness: the guarantee applied to a concrete retained partner. -/
theorem c5_filter_guarantee_witness :
    ((⟨"p", "N", "a", .fin 1, .fin 2, none, true, none⟩ : Partner) : Partner).is_public = true ∧
    JsNum.isNaN (⟨"p", "N", "a", .fin 1, .fin 2, none, true, none⟩ : Partner).lat = false ∧
    JsNum.isNaN (⟨"p", "N", "a", .fin 1, .fin 2, none, true, none⟩ : Partner).lng = false :=
  c5_filter_guarantee [⟨"p", "N", "a", .fin 1, .fin 2, none, true, none⟩] none 5
    (⟨"p", "N", "a", .fin 1, .fin 2, none, true, none⟩, none)
    (by simp [visiblePartners, baseVisible, partnerValid, JsNum.isNaN])

/-! ## C7 — filtering, ranking and stability -/

/-- C7: without a reference point the filter returns exactly the valid
partners in original order with no distance annotation; with one it
retains exactly the valid partners whose distance is defined and at most
the radius (inclusive), sorted ascending by distance, and entries with
equal distances keep their original relative order (stable sort). -/
theorem c7_visibility_filter_ranking (partners : List Partner) (u : GeoPoint) (r : ℝ) :
    ((∀ x : Partner × Option ℝ, x ∈ visiblePartners partners none r ↔
        (x.1 ∈ partners ∧ partnerValid x.1 = true ∧ x.2 = none)) ∧
      List.Sublist ((visiblePartners partners none r).map Prod.fst) partners) ∧
    ((∀ x : Partner × Option ℝ, x ∈ visiblePartners partners (some u) r ↔
        (x.1 ∈ partners ∧ partnerValid x.1 = true ∧ x.2 = partnerDist u x.1 ∧
          ∃ d, x.2 = some d ∧ d ≤ r)) ∧
      (visiblePartners partners (some u) r).Pairwise (fun x y => optLE x y = true) ∧
      (∀ x y : Partner × Option ℝ, List.Sublist [x, y] (withinRadius u partners r) → x.2 = y.2 →
        List.Sublist [x, y] (visiblePartners partners (some u) r))) := by
  refine ⟨⟨?_, ?_⟩, ?_, ?_, ?_⟩
  · intro x
    unfold visiblePartners
    simp only [List.mem_map, mem_baseVisible]
    constructor
    · rintro ⟨p, ⟨hp, hv⟩, rfl⟩
      exact ⟨hp, hv, rfl⟩
    · rintro ⟨hp, hv, hx2⟩
      refine ⟨x.1, ⟨hp, hv⟩, ?_⟩
      rw [← hx2]
  · unfold visiblePartners baseVisible
    rw [List.map_map]
    have : (Prod.fst ∘ fun p : Partner => (p, (none : Option ℝ))) = id := rfl
    rw [this, List.map_id]
    exact List.filter_sublist _
  · intro x
    unfold visiblePartners
    rw [List.mem_mergeSort]
    exact mem_withinRadius
  · exact List.sorted_mergeSort optLE_trans optLE_total _
  · intro x y hsub heq
    unfold visiblePartners
    refine List.pair_sublist_mergeSort optLE_trans optLE_total ?_ hsub
    cases hx : x.2 with
    | none => simp [optLE, hx, heq ▸ hx]
    | some d => simp [optLE, hx, heq ▸ hx]

/-- C7, witness: the no-reference-point characterization applied at a
concrete list, establishing membership of the single valid partner. -/
theorem c7_visibility_filter_ranking_witness :
    ((⟨"p", "N", "a", .fin 1, .fin 2, none, true, none⟩ : Partner), (none : Option ℝ)) ∈
      visiblePartners [⟨"p", "N", "a", .fin 1, .fin 2, none, true, none⟩] none 5 :=
  ((c7_visibility_filter_ranking [⟨"p", "N", "a", .fin 1, .fin 2, none, true, none⟩]
      ⟨0, 0⟩ 5).1.1 (⟨"p", "N", "a", .fin 1, .fin 2, none, true, none⟩, none)).mpr
    ⟨by simp, by simp [partnerValid, JsNum.isNaN], rfl⟩

/-! ## Collaboration graph lemmas -/

lemma offDiagPairs_length (l : List α) : (offDiagPairs l).length = l.length.choose 2 := by
  induction l with
  | nil => simp [offDiagPairs]
  | cons x xs ih =>
    simp only [offDiagPairs, List.length_append, List.length_map, ih, List.length_cons]
    rw [Nat.choose_succ_succ, Nat.choose_one_right]

/-! ## C8 — complete graph per collaboration -/

/-- C8: a collaboration whose member list restricted to the visible
partner set has `n` elements contributes no edges when `n < 2` and
exactly `n·(n−1)/2` edges (one per unordered pair, the complete graph)
when `n ≥ 2`. -/
theorem c8_complete_graph (c : Collab) (members : List CollabMember) (vis : List Partner) :
    ((restrictedIds c members vis).length < 2 → edgesForCollab c members vis = []) ∧
    (2 ≤ (restrictedIds c members vis).length →
      (edgesForCollab c members vis).length =
        (restrictedIds c members vis).length * ((restrictedIds c members vis).length - 1) / 2) := by
  constructor
  · intro h
    unfold edgesForCollab
    rw [if_pos h]
  · intro h
    unfold edgesForCollab
    rw [if_neg (not_lt.mpr h), List.length_map, offDiagPairs_length, Nat.choose_two_right]

/-- C8, witness: a collaboration with three visible members contributes
exactly `3·2/2 = 3` edges. -/
theorem c8_complete_graph_witness :
    (edgesForCollab ⟨"c", "C", none, none, none, .active, none⟩
      [⟨"c", "a"⟩, ⟨"c", "b"⟩, ⟨"c", "d"⟩]
      [⟨"a", "A", "x", .fin 1, .fin 1, none, true, none⟩,
       ⟨"b", "B", "x", .fin 2, .fin 2, none, true, none⟩,
       ⟨"d", "D", "x", .fin 3, .fin 3, none, true, none⟩]).length =
    (restrictedIds ⟨"c", "C", none, none, none, .active, none⟩
      [⟨"c", "a"⟩, ⟨"c", "b"⟩, ⟨"c", "d"⟩]
      [⟨"a", "A", "x", .fin 1, .fin 1, none, true, none⟩,
       ⟨"b", "B", "x", .fin 2, .fin 2, none, true, none⟩,
       ⟨"d", "D", "x", .fin 3, .fin 3, none, true, none⟩]).length *
      ((restrictedIds ⟨"c", "C", none, none, none, .active, none⟩
        [⟨"c", "a"⟩, ⟨"c", "b"⟩, ⟨"c", "d"⟩]
        [⟨"a", "A", "x", .fin 1, .fin 1, none, true, none⟩,
         ⟨"b", "B", "x", .fin 2, .fin 2, none, true, none⟩,
         ⟨"d", "D", "x", .fin 3, .fin 3, none, true, none⟩]).length - 1) / 2 :=
  (c8_complete_graph ⟨"c", "C", none, none, none, .active, none⟩
    [⟨"c", "a"⟩, ⟨"c", "b"⟩, ⟨"c", "d"⟩]
    [⟨"a", "A", "x", .fin 1, .fin 1, none, true, none⟩,
     ⟨"b", "B", "x", .fin 2, .fin 2, none, true, none⟩,
     ⟨"d", "D", "x", .fin 3, .fin 3, none, true, none⟩]).2
  (by simp [restrictedIds, memberIdsOf])

/-! ## C6 — edge identifiers -/

/-- C6, counterexample: with the same collaboration and the same two
visible partners, listing the members as `a, b` yields the edge
identifier `"c:a-b"` while listing them as `b, a` yields `"c:b-a"`: the
identifier follows membership-list order, not a canonical
(lexicographically sorted) order, so opposite membership order produces
a different identifier. -/
theorem c6_counterexample :
    ((collabEdges true [⟨"c", "a"⟩, ⟨"c", "b"⟩]
        [⟨"c", "C", none, none, none, .active, none⟩] "all"
        [⟨"a", "A", "x", .fin 1, .fin 1, none, true, none⟩,
         ⟨"b", "B", "x", .fin 2, .fin 2, none, true, none⟩]).map (fun e => e.id) = ["c:a-b"]) ∧
    ((collabEdges true [⟨"c", "b"⟩, ⟨"c", "a"⟩]
        [⟨"c", "C", none, none, none, .active, none⟩] "all"
        [⟨"a", "A", "x", .fin 1, .fin 1, none, true, none⟩,
         ⟨"b", "B", "x", .fin 2, .fin 2, none, true, none⟩]).map (fun e => e.id) = ["c:b-a"]) ∧
    ("c:b-a" ≠ "c:a-b") := by
  refine ⟨?_, ?_, by decide⟩ <;> rfl

/-- C6, amended: every edge identifier is the collaboration id followed
by the two endpoint ids joined as `collabId:aId-bId`, where the
endpoints appear in restricted-membership-list order; recomputation
from identical inputs (including identical membership order) therefore
reproduces identical identifiers, but reversed membership order reverses
the identifier. -/
theorem c6_edge_id_format (showCollabs : Bool) (members : List CollabMember)
    (collabs : List Collab) (sel : String) (vis : List Partner) (e : Edge)
    (he : e ∈ collabEdges showCollabs members collabs sel vis) :
    e.id = e.collabId ++ ":" ++ e.a.id ++ "-" ++ e.b.id := by
  unfold collabEdges at he
  split_ifs at he with h1
  · exact absurd he (List.not_mem_nil e)
  · simp only [List.mem_ite_nil_left, List.mem_flatMap] at he
    obtain ⟨-, c, -, hc⟩ := he
    unfold edgesForCollab at hc
    simp only [List.mem_ite_nil_left, List.mem_map] at hc
    obtain ⟨-, ab, -, heq⟩ := hc
    rw [← heq]
    rfl

/-- C6, witness: the identifier format applied to the concrete edge of a
two-member collaboration. -/
theorem c6_edge_id_format_witness :
    (mkEdge ⟨"c", "C", none, none, none, .active, none⟩
        ⟨"a", "A", "x", .fin 1, .fin 1, none, true, none⟩
        ⟨"b", "B", "x", .fin 2, .fin 2, none, true, none⟩).id =
      (mkEdge ⟨"c", "C", none, none, none, .active, none⟩
        ⟨"a", "A", "x", .fin 1, .fin 1, none, true, none⟩
        ⟨"b", "B", "x", .fin 2, .fin 2, none, true, none⟩).collabId ++ ":" ++
      (mkEdge ⟨"c", "C", none, none, none, .active, none⟩
        ⟨"a", "A", "x", .fin 1, .fin 1, none, true, none⟩
        ⟨"b", "B", "x", .fin 2, .fin 2, none, true, none⟩).a.id ++ "-" ++
      (mkEdge ⟨"c", "C", none, none, none, .active, none⟩
        ⟨"a", "A", "x", .fin 1, .fin 1, none, true, none⟩
        ⟨"b", "B", "x", .fin 2, .fin 2, none, true, none⟩).b.id :=
  c6_edge_id_format true [⟨"c", "a"⟩, ⟨"c", "b"⟩]
    [⟨"c", "C", none, none, none, .active, none⟩] "all"
    [⟨"a", "A", "x", .fin 1, .fin 1, none, true, none⟩,
     ⟨"b", "B", "x", .fin 2, .fin 2, none, true, none⟩]
    (mkEdge ⟨"c", "C", none, none, none, .active, none⟩
      ⟨"a", "A", "x", .fin 1, .fin 1, none, true, none⟩
      ⟨"b", "B", "x", .fin 2, .fin 2, none, true, none⟩)
    (by simp [collabEdges, eligibleCollabs, edgesForCollab, restrictedIds, memberIdsOf,
        offDiagPairs, lookupLast])

end CollabMap
